import Mathlib

/-!
Verification of the task-processing core in `cmd/advanced/main.go`:
token-bucket rate limiter, worker pool with bounded queue, result pooling,
atomic statistics counters, and once-guarded graceful shutdown.

The Go code is shallowly embedded: each Go function becomes a Lean function
over an explicit state; scheduling nondeterminism (which ready `select` case
fires, whether the workers finish before the shutdown deadline, the token
counts observed after each `cond.Wait`) is passed in as explicit oracle
arguments, so every possible interleaving of the original program corresponds
to some choice of oracle values.
-/

namespace AdvancedDemo

/-- Outcome of `RateLimiter.Acquire` (`nil` vs `ctx.Err()`, which for a
cancelled context is `context.Canceled`). -/
inductive AcquireOutcome where
  | acquired
  | canceled
deriving DecidableEq, Repr

/-- State of `RateLimiter` (`cmd/advanced/main.go`, lines 130-137): the
fields touched by `Acquire`/`refillTokens`.  `tokens` and `maxTokens` are Go
`int`s, embedded as `Int`; the mutex, condition variable and `lastRefill`
timestamp carry no data relevant to the verified properties. -/
structure RateLimiter where
  tokens : Int
  maxTokens : Int
  refillRateMs : Nat
deriving DecidableEq, Repr

/-- `NewRateLimiter` (lines 139-151): the limiter starts with
`tokens = maxTokens` and spawns the background refill goroutine. -/
def NewRateLimiter (maxTokens : Int) (refillRateMs : Nat) : RateLimiter :=
  { tokens := maxTokens, maxTokens := maxTokens, refillRateMs := refillRateMs }

/-- One tick of `refillTokens` (lines 157-164) under the lock:
`if rl.tokens < rl.maxTokens { rl.tokens++; rl.cond.Signal() }`.
Returns the new token count. -/
def refillTick (tokens maxTokens : Int) : Int :=
  if tokens < maxTokens then tokens + 1 else tokens

/-- `k` successive refill ticks with no interleaved acquisitions. -/
def refillTicks : Nat → Int → Int → Int
  | 0, tokens, _ => tokens
  | k + 1, tokens, maxTokens => refillTicks k (refillTick tokens maxTokens) maxTokens

/-- `RateLimiter.Acquire` (lines 168-183).  The loop
`for rl.tokens <= 0 { select { case <-ctx.Done(): return ctx.Err();
default: rl.cond.Wait() } }; rl.tokens--` is embedded with the context's
done-state as a constant `cancelled : Bool` (a Go context, once done, stays
done; the claims concern a signal that has already fired, or never fires)
and the token count observed on return from each `cond.Wait` supplied by the
oracle list `refills`.  An empty oracle at a wait point means the call blocks
forever (`none`).  Returns the outcome together with the token count the call
leaves behind. -/
def acquireLoop (cancelled : Bool) : Int → List Int → Option (AcquireOutcome × Int)
  | tokens, [] =>
      if tokens ≤ 0 then
        if cancelled then some (.canceled, tokens) else none
      else
        some (.acquired, tokens - 1)
  | tokens, t :: rest =>
      if tokens ≤ 0 then
        if cancelled then some (.canceled, tokens) else acquireLoop cancelled t rest
      else
        some (.acquired, tokens - 1)

/-- `n` back-to-back successful `Acquire` calls with no refill ticks in
between (every wait oracle empty); `none` if any call fails or blocks. -/
def acquireN : Nat → Int → Option Int
  | 0, tokens => some tokens
  | n + 1, tokens =>
      match acquireLoop false tokens [] with
      | some (.acquired, t) => acquireN n t
      | _ => none

theorem refillTicks_formula (k : Nat) :
    ∀ i m : Int, i ≤ m → refillTicks k i m = min m (i + k) := by
  induction k with
  | zero => intro i m h; simp [refillTicks]; omega
  | succ k ih =>
      intro i m h
      rw [refillTicks, refillTick]
      by_cases hc : i < m
      · rw [if_pos hc, ih (i + 1) m (by omega)]
        omega
      · rw [if_neg hc, ih i m h]
        omega

theorem acquireLoop_range (m : Int) :
    ∀ (refills : List Int) (tokens : Int) (c : Bool) (o : AcquireOutcome) (t : Int),
      0 ≤ tokens → tokens ≤ m → (∀ x ∈ refills, 0 ≤ x ∧ x ≤ m) →
      acquireLoop c tokens refills = some (o, t) → 0 ≤ t ∧ t ≤ m := by
  intro refills
  induction refills with
  | nil =>
      intro tokens c o t h0 h1 _ heq
      rw [acquireLoop] at heq
      by_cases hz : tokens ≤ 0
      · rw [if_pos hz] at heq
        cases c with
        | false => simp at heq
        | true => simp at heq; omega
      · rw [if_neg hz] at heq
        simp at heq
        omega
  | cons x rest ih =>
      intro tokens c o t h0 h1 hr heq
      rw [acquireLoop] at heq
      by_cases hz : tokens ≤ 0
      · rw [if_pos hz] at heq
        cases c with
        | false =>
            simp at heq
            exact ih x false o t (hr x (by simp)).1 (hr x (by simp)).2
              (fun y hy => hr y (by simp [hy])) heq
        | true => simp at heq; omega
      · rw [if_neg hz] at heq
        simp at heq
        omega

theorem acquireN_formula : ∀ (n : Nat) (t : Int), (n : Int) ≤ t →
    acquireN n t = some (t - n) := by
  intro n
  induction n with
  | zero => intro t _; simp [acquireN]
  | succ n ih =>
      intro t h
      have hpos : ¬ t ≤ 0 := by omega
      rw [acquireN, acquireLoop, if_neg hpos]
      show acquireN n (t - 1) = some (t - (n + 1))
      rw [ih (t - 1) (by omega)]
      congr 1
      omega

/-- Values stored in the `map[string]interface{}` metadata mappings. -/
inductive MetaValue where
  | str : String → MetaValue
  | int : Int → MetaValue
  | strList : List String → MetaValue
  | table : List (String × MetaValue) → MetaValue

/-- `ImageProcessingTask` (lines 56-61). -/
structure ImageProcessingTask where
  id : String
  imageURL : String
  filters : List String
  priority : Int

/-- `ImageProcessingTask.Validate` (lines 68-73). -/
def ImageProcessingTask.validate (t : ImageProcessingTask) : Except String Unit :=
  if t.id = "" ∨ t.imageURL = "" then
    Except.error "invalid image processing task: missing required fields"
  else
    Except.ok ()

/-- `ImageProcessingTask.ExtractMetadata` (lines 76-99): reflection walks the
four struct fields in declaration order and stores each under its JSON tag
(none of the field types implements `fmt.Stringer`, so no `_string` entries
are added).  The Go map is embedded as an association list in insertion
order. -/
def ImageProcessingTask.extractMetadata (t : ImageProcessingTask) :
    List (String × MetaValue) :=
  [("id", .str t.id), ("image_url", .str t.imageURL),
   ("filters", .strList t.filters), ("priority", .int t.priority)]

/-- `DataAnalysisTask` (lines 101-106); `Query` is a
`map[string]interface{}`. -/
structure DataAnalysisTask where
  id : String
  dataset : String
  query : List (String × MetaValue)
  priority : Int

/-- `DataAnalysisTask.Validate` (lines 113-118). -/
def DataAnalysisTask.validate (t : DataAnalysisTask) : Except String Unit :=
  if t.id = "" ∨ t.dataset = "" then
    Except.error "invalid data analysis task: missing required fields"
  else
    Except.ok ()

/-- `DataAnalysisTask.ExtractMetadata` (lines 120-127). -/
def DataAnalysisTask.extractMetadata (t : DataAnalysisTask) :
    List (String × MetaValue) :=
  [("id", .str t.id), ("dataset", .str t.dataset),
   ("query", .table t.query), ("type", .str "data_analysis")]

/-- A value of the `Task` interface (lines 46-53).  The two concrete kinds
the program defines are `ImageProcessingTask` and `DataAnalysisTask`; `other`
stands for any further implementation of the interface (one that passes its
own `Validate` and returns its own metadata, here left empty), carrying its
ID and its dynamic type name, which is all `routeTask` inspects. -/
inductive Task where
  | image : ImageProcessingTask → Task
  | data : DataAnalysisTask → Task
  | other : String → String → Task

/-- `Task.GetID()`. -/
def Task.getID : Task → String
  | .image t => t.id
  | .data t => t.id
  | .other idStr _ => idStr

/-- `Task.Validate()` dispatched on the dynamic type. -/
def Task.validate : Task → Except String Unit
  | .image t => t.validate
  | .data t => t.validate
  | .other _ _ => Except.ok ()

/-- `Task.ExtractMetadata()` dispatched on the dynamic type. -/
def Task.extractMetadata : Task → List (String × MetaValue)
  | .image t => t.extractMetadata
  | .data t => t.extractMetadata
  | .other _ _ => []

/-- Oracle for the simulated task handlers `processImageTask` /
`processDataTask` (lines 355-379): each sleeps a random time and fails with
a fixed message at random, so the embedding takes the outcome of the
dispatched handler as an input. -/
inductive HandlerOutcome where
  | ok
  | fail : String → HandlerOutcome

/-- `WorkerPool.routeTask` (lines 340-353): reflection-based dispatch on the
task's dynamic type; any type other than the two known ones yields
`fmt.Errorf("unknown task type: %s", taskType.Name())`.  The returned
`Option String` is the Go `error` (`none` = `nil`). -/
def routeTask (task : Task) (handler : HandlerOutcome) : Option String :=
  match task with
  | .image _ => match handler with | .ok => none | .fail msg => some msg
  | .data _ => match handler with | .ok => none | .fail msg => some msg
  | .other _ tyName => some ("unknown task type: " ++ tyName)

/-- `TaskResult` (lines 244-251).  Times are abstract `Nat` instants. -/
structure TaskResult where
  taskID : String
  success : Bool
  errMsg : Option String
  duration : Nat
  metadata : List (String × MetaValue)
  timestamp : Nat

/-- The reset step of `processTask` (lines 305-309):
`*result = TaskResult{TaskID: task.GetID(), Timestamp: start}` assigns a
whole struct literal, so every field of the pooled object is overwritten
(fields absent from the literal get the Go zero value). -/
def resetResult (pooled : TaskResult) (tid : String) (start : Nat) : TaskResult :=
  { pooled with
    taskID := tid, success := false, errMsg := none,
    duration := 0, metadata := [], timestamp := start }

/-- Everything observable about one `processTask` run. -/
structure ProcessOutcome where
  result : TaskResult
  sentToChannel : Bool
  warnedChannelFull : Bool
  processedDelta : Int
  errorsDelta : Int
  returnedToPool : Bool

/-- `WorkerPool.processTask` (lines 298-337).  Inputs beyond the task: the
handler oracle, the pooled `TaskResult` handed out by `resultPool.Get`, the
start instant and measured elapsed time, and whether the buffered
`resultChan` has room (the readiness of the non-blocking send's channel
case).  `returnedToPool` records that the `defer wp.resultPool.Put(result)`
installed right after `Get` runs on this exit path. -/
def processTask (task : Task) (workerID : Nat) (handler : HandlerOutcome)
    (pooled : TaskResult) (start elapsed : Nat) (resultChanHasSpace : Bool) :
    ProcessOutcome :=
  let r0 := resetResult pooled task.getID start
  let err := routeTask task handler
  let r1 : TaskResult :=
    { r0 with
      duration := elapsed, success := err.isNone, errMsg := err,
      metadata := task.extractMetadata }
  { result := r1
    sentToChannel := resultChanHasSpace
    warnedChannelFull := !resultChanHasSpace
    processedDelta := 1
    errorsDelta := if err.isSome then 1 else 0
    returnedToPool := true }

/-- Which ready case a Go `select` commits to when several are ready at
once: Go chooses uniformly at random among the ready cases, so the choice is
an oracle.  `first`/`second` name the cases in source order. -/
inductive SelectChoice where
  | first
  | second

/-- One iteration of the `select` in `WorkerPool.worker` (lines 287-295) as
seen by the scheduler: either a task is delivered by `taskQueue`, or
`ctx.Done()` is ready, or both at once (then the oracle picks the case;
case 1 in source order receives the task, case 2 returns from the worker). -/
inductive WorkerPoll where
  | taskArrives : Task → WorkerPoll
  | shutdownFires : WorkerPoll
  | bothReady : Task → SelectChoice → WorkerPoll

/-- The worker loop of `WorkerPool.worker` (lines 282-296) over a schedule
of poll results: returns the tasks the worker dispatches to `processTask`,
in order, stopping at the iteration that takes the `ctx.Done()` case. -/
def workerRun : List WorkerPoll → List Task
  | [] => []
  | .taskArrives t :: rest => t :: workerRun rest
  | .shutdownFires :: _ => []
  | .bothReady t choice :: rest =>
      match choice with
      | .first => t :: workerRun rest
      | .second => []

/-- Result of `WorkerPool.Submit` (lines 399-412).  `panicSendOnClosedChannel`
is the runtime fault raised when the `select` commits to the
`wp.taskQueue <- task` case after `Shutdown` has executed
`close(wp.taskQueue)`: in Go a send case on a closed channel counts as ready
and panics when chosen. -/
inductive SubmitOutcome where
  | ok
  | validationFailed : String → SubmitOutcome
  | poolShuttingDown
  | queueFull
  | panicSendOnClosedChannel
deriving DecidableEq, Repr

/-- `WorkerPool.Submit` (lines 399-412).  State: current queue length and
capacity, whether `close(wp.taskQueue)` has run, whether `wp.ctx` is
cancelled; `choice` resolves the `select` when both non-default cases are
ready.  Returns the outcome and the new queue length. -/
def Submit (task : Task) (queueLen queueCap : Nat)
    (taskQueueClosed ctxDone : Bool) (choice : SelectChoice) :
    SubmitOutcome × Nat :=
  match task.validate with
  | .error msg => (.validationFailed ("task validation failed: " ++ msg), queueLen)
  | .ok _ =>
    let sendReady : Bool := taskQueueClosed || decide (queueLen < queueCap)
    let enqueue : SubmitOutcome × Nat :=
      if taskQueueClosed then (.panicSendOnClosedChannel, queueLen)
      else (.ok, queueLen + 1)
    if sendReady && ctxDone then
      match choice with
      | .first => enqueue
      | .second => (.poolShuttingDown, queueLen)
    else if sendReady then enqueue
    else if ctxDone then (.poolShuttingDown, queueLen)
    else (.queueFull, queueLen)

/-- Shutdown-coordinator phases (`Running -> Draining -> Stopped`, with the
error-terminal `TimedOut`). -/
inductive PoolPhase where
  | running
  | draining
  | stopped
  | timedOut
deriving DecidableEq, Repr

/-- The `WorkerPool` fields `Shutdown` touches: the `sync.Once` guard
(`shutdownOnceDone` = the `Once` has already executed its body), the task
queue's closed flag, the cancellation context, and the `shutdownCh` channel;
`phase` makes the coordinator state machine explicit. -/
structure PoolState where
  phase : PoolPhase
  shutdownOnceDone : Bool
  taskQueueClosed : Bool
  ctxCancelled : Bool
  shutdownChClosed : Bool
deriving DecidableEq, Repr

/-- The pool state right after `NewWorkerPool` (lines 253-280). -/
def newPoolState : PoolState :=
  { phase := .running, shutdownOnceDone := false, taskQueueClosed := false,
    ctxCancelled := false, shutdownChClosed := false }

/-- `WorkerPool.Shutdown` (lines 415-450).  `workersFinishWithinTimeout` is
the oracle for the race between `wp.wg.Wait()` completing and the
`shutdownCtx` deadline (a caller-supplied `timeout`) elapsing.  The local
`var shutdownErr error` starts as `nil` on every call and is only assigned
inside `shutdownOnce.Do`, so a call that finds the `Once` consumed returns
`nil` unconditionally (a second concurrent caller blocks in `Once.Do` until
the first body finishes, then likewise returns its own `nil`). -/
def Shutdown (wp : PoolState) (workersFinishWithinTimeout : Bool) :
    PoolState × Option String :=
  if wp.shutdownOnceDone then
    (wp, none)
  else
    let drained : PoolState :=
      { phase := .draining, shutdownOnceDone := true, taskQueueClosed := true,
        ctxCancelled := true, shutdownChClosed := false }
    if workersFinishWithinTimeout then
      ({ drained with phase := .stopped, shutdownChClosed := true }, none)
    else
      ({ drained with phase := .timedOut, shutdownChClosed := true },
        some "shutdown timeout exceeded")

/-- One task's worth of atomic-counter updates in `processTask`
(lines 320-323), folded over a run: `totalProcessed` always gains 1,
`totalErrors` gains 1 exactly when `routeTask` returned a non-nil error. -/
def statsStep (stats : Int × Int) (task : Task) (handler : HandlerOutcome) :
    Int × Int :=
  let o := processTask task 0 handler
    ⟨"", false, none, 0, [], 0⟩ 0 0 true
  (stats.1 + o.processedDelta, stats.2 + o.errorsDelta)

/-- The counter pair `(totalProcessed, totalErrors)` (read by `GetStats`,
lines 452-454) after a sequence of processed tasks, starting from the zero
counters of a fresh pool. -/
def runStats (steps : List (Task × HandlerOutcome)) : Int × Int :=
  steps.foldl (fun s th => statsStep s th.1 th.2) (0, 0)

/-- A concrete valid image task, of the shape `main` submits. -/
def imgSample : ImageProcessingTask :=
  { id := "img_2", imageURL := "https://example.com/image_2.jpg",
    filters := ["blur", "sharpen"], priority := 3 }

/-- An image task failing validation (missing ID). -/
def badImgSample : ImageProcessingTask :=
  { id := "", imageURL := "https://example.com/image_9.jpg",
    filters := [], priority := 1 }

theorem statsStep_fst (s : Int × Int) (t : Task) (h : HandlerOutcome) :
    (statsStep s t h).1 = s.1 + 1 := rfl

theorem statsStep_snd_le (s : Int × Int) (t : Task) (h : HandlerOutcome) :
    s.2 ≤ (statsStep s t h).2 ∧ (statsStep s t h).2 ≤ s.2 + 1 := by
  unfold statsStep processTask
  dsimp
  split <;> omega

theorem runStats_aux (steps : List (Task × HandlerOutcome)) :
    ∀ s : Int × Int, s.2 ≤ s.1 →
      (steps.foldl (fun s th => statsStep s th.1 th.2) s).2 ≤
        (steps.foldl (fun s th => statsStep s th.1 th.2) s).1 := by
  induction steps with
  | nil => intro s h; simpa using h
  | cons th rest ih =>
      intro s h
      simp only [List.foldl_cons]
      refine ih _ ?_
      have h1 := statsStep_fst s th.1 th.2
      have h2 := statsStep_snd_le s th.1 th.2
      omega

/-- C1 (counterexample): the claim says a second `Shutdown` call returns the
same outcome as the first.  Concretely, on a fresh pool whose workers do not
finish within the timeout, the first call returns the
"shutdown timeout exceeded" error while the second call returns `nil`
(`Once.Do` skips the body and the fresh local `shutdownErr` stays `nil`), so
the two outcomes differ. -/
theorem C1_second_shutdown_other_outcome :
    (Shutdown newPoolState false).2 = some "shutdown timeout exceeded" ∧
    (Shutdown (Shutdown newPoolState false).1 false).2 = none ∧
    (some "shutdown timeout exceeded" : Option String) ≠ none :=
  ⟨rfl, rfl, by simp⟩

/-- C1 (amended): a second `Shutdown` call, sequential or concurrent and with
any timeout oracle, is a no-op on the pool state — the `Running -> Draining`
transition happens exactly once — and always returns `nil`; this equals the
first call's outcome exactly when the first call did not time out. -/
theorem C1_shutdown_transitions_once (s : PoolState) (b bSecond : Bool)
    (h : s.shutdownOnceDone = false) :
    (Shutdown s b).1.shutdownOnceDone = true ∧
    (Shutdown s b).1.phase ≠ PoolPhase.running ∧
    Shutdown (Shutdown s b).1 bSecond = ((Shutdown s b).1, none) ∧
    (b = true → (Shutdown s b).2 = none) := by
  cases b <;> simp [Shutdown, h]

/-- C1 witness: the amended theorem applied to a fresh pool whose workers
finish in time. -/
theorem C1_shutdown_transitions_once_witness :
    newPoolState.shutdownOnceDone = false ∧
    ((Shutdown newPoolState true).1.shutdownOnceDone = true ∧
      (Shutdown newPoolState true).1.phase ≠ PoolPhase.running ∧
      Shutdown (Shutdown newPoolState true).1 true =
        ((Shutdown newPoolState true).1, none) ∧
      (true = true → (Shutdown newPoolState true).2 = none)) :=
  ⟨rfl, C1_shutdown_transitions_once newPoolState true true rfl⟩

/-- C2: `Submit` does validate first (returning the wrapped validation error
without enqueueing) and returns the queue-full error on a full open queue;
but once `Shutdown` has run `close(wp.taskQueue)`, a `Submit` of a valid task
does not reliably return the typed pool-closed error: in the window after
`close(wp.taskQueue)` and before `wp.cancel()` the send case is the only
ready `select` case and the send on the closed channel panics, and even after
cancellation the `select` may commit to the send case and panic.  This
contradicts the code's own "Stop accepting new tasks" intent. -/
theorem C2_submit_after_close_faults :
    Submit (.image badImgSample) 0 100 false false .first =
      (.validationFailed
        "task validation failed: invalid image processing task: missing required fields",
        0) ∧
    (Submit (.image imgSample) 100 100 false false .first).1 = .queueFull ∧
    (Submit (.image imgSample) 100 100 false false .first).2 = 100 ∧
    (Submit (.image imgSample) 0 100 true false .first).1 =
      .panicSendOnClosedChannel ∧
    (Submit (.image imgSample) 0 100 true false .second).1 =
      .panicSendOnClosedChannel ∧
    (Submit (.image imgSample) 0 100 true true .first).1 =
      .panicSendOnClosedChannel ∧
    (Submit (.image imgSample) 0 100 true true .second).1 = .poolShuttingDown :=
  ⟨rfl, rfl, rfl, rfl, rfl, rfl, rfl⟩

/-- C3 (counterexample): the claim says `Acquire` under an already-cancelled
context returns the cancellation error and never decrements the token count.
Concretely, with one token available and the context already done, `Acquire`
never reaches the `select` (the loop guard `tokens <= 0` fails), decrements
the count to 0 and returns `nil`. -/
theorem C3_cancelled_acquire_takes_token :
    acquireLoop true 1 [] = some (.acquired, 0) ∧
    acquireLoop true 1 [] ≠ some (.canceled, 1) := by
  refine ⟨rfl, by decide⟩

/-- C3 (amended): only when the cancel signal has fired and the token count
at entry is non-positive does `Acquire` return the cancellation error without
issuing a token (and without waiting); with a positive count it issues a
token and succeeds even though the signal has fired.  Cancellation is checked
before each wait; after a wait it is re-checked only if the count is still
non-positive. -/
theorem C3_cancelled_acquire_no_token (tokens : Int) (refills : List Int)
    (h : tokens ≤ 0) :
    acquireLoop true tokens refills = some (.canceled, tokens) := by
  cases refills <;> simp [acquireLoop, h]

/-- C3 witness: the amended theorem at an empty bucket. -/
theorem C3_cancelled_acquire_no_token_witness :
    (0 : Int) ≤ 0 ∧ acquireLoop true 0 [] = some (.canceled, 0) :=
  ⟨by decide, C3_cancelled_acquire_no_token 0 [] (by decide)⟩

/-- C4: in every reachable limiter state the token count stays in
`[0, maxTokens]`: a refill tick adds at most one token and never exceeds the
cap, `k` ticks with no acquisitions from a reachable count `i` leave exactly
`min maxTokens (i + k)` tokens, and any completed `Acquire` (which decrements
only from a positive count) leaves a count still inside the range, given that
the counts observed after waits are themselves reachable. -/
theorem C4_token_count_invariants (i m : Int) (k : Nat) (c : Bool)
    (refills : List Int) (h0 : 0 ≤ i) (h1 : i ≤ m)
    (hr : ∀ x ∈ refills, 0 ≤ x ∧ x ≤ m) :
    (∀ t : Int, 0 ≤ t → t ≤ m →
      0 ≤ refillTick t m ∧ refillTick t m ≤ m ∧ refillTick t m ≤ t + 1) ∧
    refillTicks k i m = min m (i + k) ∧
    (∀ o t, acquireLoop c i refills = some (o, t) → 0 ≤ t ∧ t ≤ m) := by
  refine ⟨?_, refillTicks_formula k i m h1, ?_⟩
  · intro t ht0 ht1
    unfold refillTick
    refine ⟨by split <;> omega, by split <;> omega, by split <;> omega⟩
  · intro o t heq
    exact acquireLoop_range m refills i c o t h0 h1 hr heq

/-- C4 witness: the tick formula at the configuration `main` uses
(`maxTokens = 10`), starting full, after 5 ticks. -/
theorem C4_token_count_invariants_witness :
    ((0 : Int) ≤ 10 ∧ (10 : Int) ≤ 10) ∧ refillTicks 5 10 10 = min 10 (10 + 5) :=
  ⟨⟨by decide, by decide⟩,
    (C4_token_count_invariants 10 10 5 false [] (by decide) (by decide)
        (by simp)).2.1⟩

/-- C5 (counterexample): the claim says a worker never dispatches a task at a
poll step where the shutdown signal is already ready.  Concretely, with a
task and `ctx.Done()` simultaneously ready, Go's `select` may commit to the
task case (the choice among ready cases is pseudo-random, with no priority),
and the worker dispatches the task. -/
theorem C5_worker_may_take_task_during_shutdown :
    workerRun [.bothReady (.image imgSample) .first] = [.image imgSample] ∧
    workerRun [.bothReady (.image imgSample) .first] ≠ [] :=
  ⟨rfl, by simp [workerRun]⟩

/-- C5 (amended): when a queued task and the shutdown signal are
simultaneously ready, the worker's `select` takes either case depending on
the runtime's pseudo-random pick: one choice exits the loop at once, the
other dispatches one more task and continues; there is no shutdown-priority
tie-break. -/
theorem C5_select_tie_is_nondeterministic (t : Task) (rest : List WorkerPoll) :
    workerRun (.bothReady t .second :: rest) = [] ∧
    workerRun (.bothReady t .first :: rest) = t :: workerRun rest :=
  ⟨rfl, rfl⟩

/-- C6: dispatching a task whose dynamic type has no handler produces the
"unknown task type" error, recorded in that task's result (`success = false`,
the error stored), counted exactly like a handler failure (error counter +1,
same as an image task whose handler fails), with the processed counter also
incremented; and the worker loop continues past such a task — it is never
fatal. -/
theorem C6_unknown_kind_nonfatal (idStr tyName : String) (wid : Nat)
    (handler : HandlerOutcome) (pooled : TaskResult) (start elapsed : Nat)
    (space : Bool) (img : ImageProcessingTask) (msg : String)
    (rest : List WorkerPoll) :
    (processTask (.other idStr tyName) wid handler pooled start elapsed
        space).result.success = false ∧
    (processTask (.other idStr tyName) wid handler pooled start elapsed
        space).result.errMsg = some ("unknown task type: " ++ tyName) ∧
    (processTask (.other idStr tyName) wid handler pooled start elapsed
        space).processedDelta = 1 ∧
    (processTask (.other idStr tyName) wid handler pooled start elapsed
        space).errorsDelta = 1 ∧
    (processTask (.other idStr tyName) wid handler pooled start elapsed
        space).errorsDelta =
      (processTask (.image img) wid (.fail msg) pooled start elapsed
        space).errorsDelta ∧
    workerRun (.taskArrives (.other idStr tyName) :: rest) =
      .other idStr tyName :: workerRun rest :=
  ⟨rfl, rfl, rfl, rfl, rfl, rfl⟩

/-- C7: the result send is the non-blocking `select` with a `default` case:
with no room in the result channel the result is not sent (dropped), the
"result channel full" warning is raised, no retry happens (`processTask`
still completes this single attempt and releases the pooled object), and
with room the result is sent without a warning; the worker never blocks
here. -/
theorem C7_result_channel_nonblocking_drop (task : Task) (wid : Nat)
    (handler : HandlerOutcome) (pooled : TaskResult) (start elapsed : Nat) :
    (processTask task wid handler pooled start elapsed false).sentToChannel
        = false ∧
    (processTask task wid handler pooled start elapsed false).warnedChannelFull
        = true ∧
    (processTask task wid handler pooled start elapsed false).returnedToPool
        = true ∧
    (processTask task wid handler pooled start elapsed true).sentToChannel
        = true ∧
    (processTask task wid handler pooled start elapsed true).warnedChannelFull
        = false :=
  ⟨rfl, rfl, rfl, rfl, rfl⟩

/-- C8: the whole-struct assignment `*result = TaskResult{...}` overwrites
every field of the object borrowed from the reuse pool, so the entire
`processTask` outcome is independent of the stale contents of the pooled
object — no field of a previous task can leak into an emitted result — and
the deferred `resultPool.Put` releases the object on every exit path,
handler failure included. -/
theorem C8_pooled_result_fully_overwritten (task : Task) (wid : Nat)
    (handler : HandlerOutcome) (p1 p2 : TaskResult) (start elapsed : Nat)
    (space : Bool) :
    processTask task wid handler p1 start elapsed space =
      processTask task wid handler p2 start elapsed space ∧
    (processTask task wid handler p1 start elapsed space).returnedToPool
        = true ∧
    (processTask task wid handler p1 start elapsed (!space)).returnedToPool
        = true := by
  refine ⟨?_, rfl, rfl⟩
  cases p1
  cases p2
  rfl

/-- C9: every dispatched task adds exactly 1 to the processed counter
regardless of outcome, the error counter additionally gains 1 exactly when
routing or the handler failed (so per task the error delta never exceeds the
processed delta), over any run the cumulative counters satisfy
`errors ≤ processed`, and an unsupported-kind task increments both
counters. -/
theorem C9_counters_convention (task : Task) (wid : Nat)
    (handler : HandlerOutcome) (pooled : TaskResult) (start elapsed : Nat)
    (space : Bool) (steps : List (Task × HandlerOutcome))
    (idStr tyName : String) :
    (processTask task wid handler pooled start elapsed space).processedDelta
        = 1 ∧
    (processTask task wid handler pooled start elapsed space).errorsDelta =
      (if (routeTask task handler).isSome then 1 else 0) ∧
    (processTask task wid handler pooled start elapsed space).errorsDelta ≤
      (processTask task wid handler pooled start elapsed space).processedDelta ∧
    (runStats steps).2 ≤ (runStats steps).1 ∧
    (processTask (.other idStr tyName) wid handler pooled start elapsed
        space).processedDelta = 1 ∧
    (processTask (.other idStr tyName) wid handler pooled start elapsed
        space).errorsDelta = 1 := by
  refine ⟨rfl, rfl, ?_, runStats_aux steps (0, 0) le_rfl, rfl, rfl⟩
  unfold processTask
  dsimp
  split <;> omega

/-- C10: a newly constructed limiter starts full — `NewRateLimiter` sets
`tokens = maxTokens` — so the first `maxTokens` `Acquire` calls all succeed
immediately, with no refill tick, leaving the bucket at exactly 0. -/
theorem C10_limiter_starts_full (m : Int) (r : Nat) (h : 0 ≤ m) :
    (NewRateLimiter m r).tokens = (NewRateLimiter m r).maxTokens ∧
    (NewRateLimiter m r).tokens = m ∧
    acquireN m.toNat (NewRateLimiter m r).tokens = some 0 := by
  refine ⟨rfl, rfl, ?_⟩
  have hf := acquireN_formula m.toNat m (by omega)
  simpa [Int.toNat_of_nonneg h] using hf

/-- C10 witness: the limiter `main` constructs
(`NewRateLimiter(10, 100ms)`). -/
theorem C10_limiter_starts_full_witness :
    (0 : Int) ≤ 10 ∧ acquireN (10 : Int).toNat (NewRateLimiter 10 100).tokens
      = some 0 :=
  ⟨by decide, (C10_limiter_starts_full 10 100 (by decide)).2.2⟩

end AdvancedDemo
